import Mathlib

/-!
Verification development for the LAMatHome journal-polling engine
(`main.py`): a polling loop that reads journal entries from a web page,
deduplicates them through a SQLite ledger, and dispatches titles whose
first word is `telegram` to a Telegram messaging handler.

The Python source is shallowly embedded below: pure string manipulation
becomes Lean string functions, the SQLite table becomes an explicit
record list with an autoincrement counter, and the browser-driven
control flow of `Telegram` and of one iteration of the polling loop
becomes explicit state-passing functions over small environment records
that capture the outcomes of the page-driver calls.
-/

/-- Python `str.split()` with no separator: split on runs of whitespace,
producing no empty tokens.  `acc` holds the characters of the current
token in reverse. -/
def splitWsAux : List Char → List Char → List String
  | [], acc => if acc.isEmpty then [] else [String.mk acc.reverse]
  | c :: cs, acc =>
    if c.isWhitespace then
      if acc.isEmpty then splitWsAux cs [] else String.mk acc.reverse :: splitWsAux cs []
    else
      splitWsAux cs (c :: acc)

/-- `title.split()` from the Python source (lines 28 and 197). -/
def pySplit (s : String) : List String :=
  splitWsAux s.data []

/-- Python `str.strip()` with no argument: remove leading and trailing
whitespace. -/
def pyStripWs (s : String) : String :=
  String.mk (((s.data.dropWhile Char.isWhitespace).reverse.dropWhile Char.isWhitespace).reverse)

/-- Python `str.strip(chars)`: remove leading and trailing characters
belonging to `chars`. -/
def pyStripChars (chars : List Char) (s : String) : String :=
  String.mk (((s.data.dropWhile (fun c => chars.contains c)).reverse.dropWhile
    (fun c => chars.contains c)).reverse)

/-- The punctuation set of `strip('.,!?:;')` at line 197. -/
def punctChars : List Char := ['.', ',', '!', '?', ':', ';']

/-- Python `str.lower()` restricted to ASCII, the only case the keyword
comparison at line 199 can distinguish. -/
def pyLowerChar (c : Char) : Char :=
  if 'A' ≤ c && c ≤ 'Z' then Char.ofNat (c.toNat + 32) else c

/-- Python `str.lower()` applied characterwise. -/
def pyLower (s : String) : String :=
  String.mk (s.data.map pyLowerChar)

/-- Line 197: `words[0].strip().lower().strip('.,!?:;')` applied to a
single token. -/
def normalizeKeyword (w : String) : String :=
  pyStripChars punctChars (pyLower (pyStripWs w))

/-- The regex `^[a-z]+$` of line 199: nonempty and all characters are
lowercase ASCII letters. -/
def isLowerAlpha (s : String) : Bool :=
  !s.isEmpty && s.data.all (fun c => 'a' ≤ c && c ≤ 'z')

/-- Errors the poll-loop body can raise outside the guarded wait:
`title.split()[0]` raises `IndexError` on an empty token list. -/
inductive PollError where
  | indexError
deriving DecidableEq, Repr

/-- Lines 196-201 of `main`: compute the normalized first word of the
title (raising `IndexError` when the title has no tokens), and decide
whether the `Telegram` handler is invoked.  Returns `some title` when
the handler is called with that title, `none` when no handler runs. -/
def dispatchE (title : String) : Except PollError (Option String) :=
  match pySplit title with
  | [] => .error .indexError
  | w :: _ =>
    let fw := normalizeKeyword w
    if isLowerAlpha fw && fw == "telegram" then .ok (some title) else .ok none

/-- Lines 28-34 of `Telegram`: tokenize the title; with fewer than 3
tokens the command is invalid (`none`); otherwise the search argument is
the second token verbatim and the message body is the remaining tokens
joined with single spaces. -/
def telegramParse (title : String) : Option (String × String) :=
  match pySplit title with
  | _ :: w1 :: w2 :: rest => some (w1, String.intercalate " " (w2 :: rest))
  | _ => none

/-- One row of the SQLite `entries` table created by `init_db`
(lines 105-106): `id INTEGER PRIMARY KEY AUTOINCREMENT, title TEXT,
date TEXT, time TEXT`.  The schema places no uniqueness constraint on
`(title, date, time)`. -/
structure LedgerRecord where
  recId : Nat
  title : String
  date : String
  time : String
deriving DecidableEq, Repr

/-- The `journal_entries.db` table state: the rows in insertion order
plus the next autoincrement id. -/
structure Ledger where
  nextId : Nat
  records : List LedgerRecord
deriving DecidableEq, Repr

/-- The `WHERE title = ? AND date = ? AND time = ?` predicate of
`entry_exists` (line 113). -/
def keyMatches (r : LedgerRecord) (t d tm : String) : Bool :=
  r.title == t && r.date == d && r.time == tm

/-- `entry_exists(title, date, time)` (lines 110-116): whether some row
matches all three fields. -/
def entry_exists (db : Ledger) (t d tm : String) : Bool :=
  db.records.any (fun r => keyMatches r t d tm)

/-- `save_entry(title, date, time)` (lines 118-123): unconditionally
`INSERT` a new row; the id is drawn from the autoincrement counter. -/
def save_entry (db : Ledger) (t d tm : String) : Ledger :=
  { nextId := db.nextId + 1, records := db.records ++ [⟨db.nextId, t, d, tm⟩] }

/-- The at-most-one-record-per-key invariant stated by the spec for the
ledger. -/
def atMostOnePerKey (db : Ledger) : Prop :=
  ∀ t d tm, (db.records.filter (fun r => keyMatches r t d tm)).length ≤ 1

/-- A journal entry as rendered on the listing page: its displayed
title/date/time detail fields and the number of `svg` nodes inside its
list item (line 174 — a nonzero count marks a non-plain-text entry). -/
structure Entry where
  title : String
  date : String
  time : String
  svgCount : Nat
deriving DecidableEq, Repr

/-- The spec's `hasStructuredMarker`: the entry renders a non-text
indicator, i.e. its `svg` locator count is nonzero. -/
def hasStructuredMarker (e : Entry) : Bool :=
  e.svgCount != 0

/-- Lines 172-177: scan rendered entries in document order and pick the
first one with `svg` count 0. -/
def selectEntry (entries : List Entry) : Option Entry :=
  entries.find? (fun e => e.svgCount == 0)

/-- The page-driver outcomes one iteration of the `while True` loop
(lines 157-201) depends on: whether the 15s wait for the entry list
timed out, and the entries rendered when it did not. -/
structure CycleInput where
  listTimeout : Bool
  entries : List Entry
deriving Repr

/-- Observable outcome of one poll-loop iteration. -/
inductive CycleResult where
  | restartTimeout
  | restartNoValid
  | restartDuplicate (e : Entry)
  | crashed (e : Entry)
  | saved (e : Entry) (telegramCalled : Bool)
deriving DecidableEq, Repr

/-- One iteration of the polling loop (lines 157-201): on wait timeout,
log and `continue`; otherwise select the first entry without an svg
marker (`continue` when none); extract its fields; skip it when
`entry_exists`; otherwise `save_entry` and run the keyword dispatch of
lines 196-201, whose `IndexError` on an empty token list is not caught
by any handler in the loop. -/
def pollCycle (db : Ledger) (inp : CycleInput) : Ledger × CycleResult :=
  if inp.listTimeout then
    (db, .restartTimeout)
  else
    match selectEntry inp.entries with
    | none => (db, .restartNoValid)
    | some e =>
      if entry_exists db e.title e.date e.time then
        (db, .restartDuplicate e)
      else
        let db2 := save_entry db e.title e.date e.time
        match dispatchE e.title with
        | .error _ => (db2, .crashed e)
        | .ok none => (db2, .saved e false)
        | .ok (some _) => (db2, .saved e true)

/-- Iterate `pollCycle` over a list of cycle inputs, keeping the ledger. -/
def runCycles (db : Ledger) (inps : List CycleInput) : Ledger :=
  inps.foldl (fun d i => (pollCycle d i).1) db

/-- A well-formed empty JSON object, the placeholder `json.dump({}, f)`
writes. -/
def emptyJson : String := "\x7b\x7d"

/-- Opaque stand-in for the serialized session payload written by
`context.storage_state(path=...)`. -/
def sessionPayload : String := "session-state"

/-- Lines 132-138 plus line 142 of `main`: the journal-site session
load.  A file is `Option String` content (`none` = missing).  If the
file is missing or zero-length, an empty JSON object is written first;
the state passed to `new_context` is then the (always valid) file
content.  Returns `(state loaded, file after the call)`. -/
def rabbitholeLoad (file : Option String) : String × Option String :=
  match file with
  | none => (emptyJson, some emptyJson)
  | some c => if c.length = 0 then (emptyJson, some emptyJson) else (c, some c)

/-- Line 18 of `Telegram`: the messaging-site session load.  The file
path is passed to `new_context` only when the file exists; nothing is
written, so no placeholder is created, and an existing zero-length file
is passed through as-is.  Returns `(storage_state argument, file after
the call)`. -/
def telegramLoad (file : Option String) : Option String × Option String :=
  (if file.isSome then file else none, file)

/-- Page-driver outcomes the `Telegram` handler depends on: whether the
`[placeholder=" "]` wait succeeds on the i-th attempt, and whether a
search result is visible under `.search-super-content-chats a`. -/
structure TelegramEnv where
  markerAppears : Nat → Bool
  chatResultVisible : Bool

/-- Observable actions of one `Telegram(browser, title)` invocation. -/
structure TelegramResult where
  waitAttempts : Nat
  pageReloads : Nat
  loginSuccessful : Bool
  sessionSaves : Nat
  searchFilled : Option String
  chatClicked : Bool
  messageFilled : Option String
  sendClicked : Bool
  contextClosed : Bool
  malformedCommand : Bool
deriving DecidableEq, Repr

/-- Lines 40-46: `for _ in range(fuel)`: wait for the post-login marker
(attempt index `i`); on success stop, on timeout reload and continue.
Returns `(wait attempts, page reloads, login_successful)`. -/
def loginLoop (marker : Nat → Bool) : Nat → Nat → Nat × Nat × Bool
  | _, 0 => (0, 0, false)
  | i, fuel + 1 =>
    if marker i then
      (1, 0, true)
    else
      let r := loginLoop marker (i + 1) fuel
      (r.1 + 1, r.2.1 + 1, r.2.2)

/-- The `Telegram(browser, title)` handler (lines 14-76) over the
session file and a page-driver environment.  Control flow follows the
source: a context is created (no file write); with fewer than 3 title
tokens it logs and returns — without closing the context; otherwise it
runs the 3-attempt login loop; on failure it logs, closes, returns; on
success it saves the session, searches for the second token, and either
sends the message, saves again and closes, or (no visible result) logs,
closes, returns.  Returns the action record and the session file after
the call. -/
def TelegramRun (sessionFile : Option String) (env : TelegramEnv) (title : String) :
    TelegramResult × Option String :=
  match pySplit title with
  | _ :: w1 :: w2 :: rest =>
    let user_search := w1
    let message := String.intercalate " " (w2 :: rest)
    let login := loginLoop env.markerAppears 0 3
    if login.2.2 then
      if env.chatResultVisible then
        ({ waitAttempts := login.1, pageReloads := login.2.1, loginSuccessful := true,
           sessionSaves := 2, searchFilled := some user_search, chatClicked := true,
           messageFilled := some message, sendClicked := true, contextClosed := true,
           malformedCommand := false }, some sessionPayload)
      else
        ({ waitAttempts := login.1, pageReloads := login.2.1, loginSuccessful := true,
           sessionSaves := 1, searchFilled := some user_search, chatClicked := false,
           messageFilled := none, sendClicked := false, contextClosed := true,
           malformedCommand := false }, some sessionPayload)
    else
      ({ waitAttempts := login.1, pageReloads := login.2.1, loginSuccessful := false,
         sessionSaves := 0, searchFilled := none, chatClicked := false,
         messageFilled := none, sendClicked := false, contextClosed := true,
         malformedCommand := false }, sessionFile)
  | _ =>
    ({ waitAttempts := 0, pageReloads := 0, loginSuccessful := false,
       sessionSaves := 0, searchFilled := none, chatClicked := false,
       messageFilled := none, sendClicked := false, contextClosed := false,
       malformedCommand := true }, sessionFile)

/-! ### Helper lemmas -/

/-- `List.find?` returns the first element satisfying the predicate:
everything before it in the list fails the predicate. -/
theorem find?_eq_some_split {α : Type} (p : α → Bool) :
    ∀ (l : List α) (x : α), l.find? p = some x →
      p x = true ∧ ∃ l1 l2, l = l1 ++ x :: l2 ∧ ∀ y ∈ l1, p y = false := by
  intro l
  induction l with
  | nil => intro x h; simp [List.find?] at h
  | cons a as ih =>
    intro x h
    by_cases ha : p a = true
    · rw [List.find?_cons_of_pos _ ha] at h
      cases h
      exact ⟨ha, [], as, rfl, by simp⟩
    · rw [List.find?_cons_of_neg _ (by simpa using ha)] at h
      obtain ⟨hp, l1, l2, hl, hfail⟩ := ih x h
      refine ⟨hp, a :: l1, l2, by rw [hl]; rfl, ?_⟩
      intro y hy
      rcases List.mem_cons.mp hy with hy | hy
      · subst hy; simpa using ha
      · exact hfail y hy

/-! ### Claims -/

/-- C1: a title of at least 3 whitespace tokens whose first token,
whitespace-stripped, lowercased and punctuation-stripped, equals
`"telegram"` makes the dispatch of lines 196-201 call the `Telegram`
handler with the full title; inside the handler the search argument is
the second token verbatim and the body is the remaining tokens joined by
single spaces; any other normalized first word leads to no handler
call. -/
theorem telegram_command_routing (title w0 w1 w2 : String) (rest : List String)
    (hsplit : pySplit title = w0 :: w1 :: w2 :: rest) :
    (normalizeKeyword w0 = "telegram" →
       dispatchE title = .ok (some title) ∧
       telegramParse title = some (w1, String.intercalate " " (w2 :: rest))) ∧
    (normalizeKeyword w0 ≠ "telegram" → dispatchE title = .ok none) := by
  constructor
  · intro hk
    constructor
    · have halpha : isLowerAlpha "telegram" = true := by decide
      simp [dispatchE, hsplit, hk, halpha]
    · simp [telegramParse, hsplit]
  · intro hk
    simp [dispatchE, hsplit, hk]

/-- Witness for C1 at the spec's three example titles. -/
theorem telegram_command_routing_w :
    dispatchE "telegram alice hello there" = .ok (some "telegram alice hello there") ∧
    telegramParse "telegram alice hello there" = some ("alice", "hello there") ∧
    dispatchE "Telegram Bob hi" = .ok (some "Telegram Bob hi") ∧
    dispatchE "note buy milk" = .ok none := by
  have h1 := telegram_command_routing "telegram alice hello there"
    "telegram" "alice" "hello" ["there"] (by decide)
  have h2 := telegram_command_routing "Telegram Bob hi" "Telegram" "Bob" "hi" [] (by decide)
  have h3 := telegram_command_routing "note buy milk" "note" "buy" "milk" [] (by decide)
  exact ⟨(h1.1 (by decide)).1, (h1.1 (by decide)).2, (h2.1 (by decide)).1, h3.2 (by decide)⟩

/-- C2: when the selected entry's key is already in the ledger, the
cycle leaves the ledger untouched (no insert) and restarts without
calling the dispatch step. -/
theorem dedup_skips_existing (db : Ledger) (inp : CycleInput) (e : Entry)
    (hto : inp.listTimeout = false)
    (hsel : selectEntry inp.entries = some e)
    (hex : entry_exists db e.title e.date e.time = true) :
    pollCycle db inp = (db, .restartDuplicate e) := by
  simp [pollCycle, hto, hsel, hex]

/-- Witness for C2: a ledger already holding the key of the only
rendered entry. -/
theorem dedup_skips_existing_w :
    pollCycle ⟨2, [⟨1, "t", "d", "x"⟩]⟩ ⟨false, [⟨"t", "d", "x", 0⟩]⟩ =
      (⟨2, [⟨1, "t", "d", "x"⟩]⟩, .restartDuplicate ⟨"t", "d", "x", 0⟩) :=
  dedup_skips_existing _ _ _ rfl rfl (by decide)

/-- C3: an entry rendering a structured marker is never the selected
entry; the selected entry is the first in document order without a
marker; when every rendered entry carries a marker the cycle restarts
with the ledger untouched; a dispatched/saved entry is always
marker-free; and every new ledger row comes from a marker-free selected
entry. -/
theorem marker_entries_excluded (db : Ledger) (inp : CycleInput)
    (hto : inp.listTimeout = false) :
    (∀ e, e ∈ inp.entries → hasStructuredMarker e = true →
       selectEntry inp.entries ≠ some e) ∧
    (∀ e, selectEntry inp.entries = some e →
       hasStructuredMarker e = false ∧
       ∃ l1 l2, inp.entries = l1 ++ e :: l2 ∧ ∀ x ∈ l1, hasStructuredMarker x = true) ∧
    ((∀ e, e ∈ inp.entries → hasStructuredMarker e = true) →
       pollCycle db inp = (db, .restartNoValid)) ∧
    (∀ e b, (pollCycle db inp).2 = .saved e b → hasStructuredMarker e = false) ∧
    (∀ r, r ∈ (pollCycle db inp).1.records → r ∈ db.records ∨
       ∃ e, selectEntry inp.entries = some e ∧ hasStructuredMarker e = false ∧
         r = ⟨db.nextId, e.title, e.date, e.time⟩) := by
  refine ⟨?_, ?_, ?_, ?_, ?_⟩
  · intro e _ hm hsel
    have hp := List.find?_some hsel
    simp [hasStructuredMarker, bne] at hm
    simp [hm] at hp
  · intro e hsel
    obtain ⟨hp, l1, l2, hl, hfail⟩ := find?_eq_some_split _ _ _ hsel
    refine ⟨by simp [hasStructuredMarker, bne]; simpa using hp, l1, l2, hl, ?_⟩
    intro x hx
    have := hfail x hx
    simp [hasStructuredMarker, bne]
    simpa using this
  · intro hall
    have hnone : selectEntry inp.entries = none := by
      rw [selectEntry, List.find?_eq_none]
      intro x hx
      have := hall x hx
      simp [hasStructuredMarker, bne] at this
      simp [this]
    simp [pollCycle, hto, hnone]
  · intro e b h
    rcases hsel : selectEntry inp.entries with _ | e'
    · simp [pollCycle, hto, hsel] at h
    · have hp := List.find?_some hsel
      by_cases hex : entry_exists db e'.title e'.date e'.time = true
      · simp [pollCycle, hto, hsel, hex] at h
      · rcases hd : dispatchE e'.title with _ | o
        · simp [pollCycle, hto, hsel, hex, hd] at h
        · rcases o with _ | t
          · simp [pollCycle, hto, hsel, hex, hd] at h
            simp [hasStructuredMarker, bne, ← h.1, hp]
          · simp [pollCycle, hto, hsel, hex, hd] at h
            simp [hasStructuredMarker, bne, ← h.1, hp]
  · intro r hr
    rcases hsel : selectEntry inp.entries with _ | e'
    · simp [pollCycle, hto, hsel] at hr
      exact Or.inl hr
    · have hp := List.find?_some hsel
      by_cases hex : entry_exists db e'.title e'.date e'.time = true
      · simp [pollCycle, hto, hsel, hex] at hr
        exact Or.inl hr
      · have hmarker : hasStructuredMarker e' = false := by
          simp [hasStructuredMarker, bne]
          simpa using hp
        rcases hd : dispatchE e'.title with _ | o
        · simp [pollCycle, hto, hsel, hex, hd, save_entry] at hr
          rcases hr with hr | hr
          · exact Or.inl hr
          · exact Or.inr ⟨e', rfl, hmarker, by simp [hr]⟩
        · rcases o with _ | t
          · simp [pollCycle, hto, hsel, hex, hd, save_entry] at hr
            rcases hr with hr | hr
            · exact Or.inl hr
            · exact Or.inr ⟨e', rfl, hmarker, by simp [hr]⟩
          · simp [pollCycle, hto, hsel, hex, hd, save_entry] at hr
            rcases hr with hr | hr
            · exact Or.inl hr
            · exact Or.inr ⟨e', rfl, hmarker, by simp [hr]⟩

/-- Witness for C3: a marked entry ahead of an unmarked one is skipped. -/
theorem marker_entries_excluded_w :
    selectEntry [⟨"telegram a b", "d", "x", 1⟩, ⟨"note a", "d", "x", 0⟩] ≠
      some ⟨"telegram a b", "d", "x", 1⟩ :=
  (marker_entries_excluded ⟨1, []⟩
      ⟨false, [⟨"telegram a b", "d", "x", 1⟩, ⟨"note a", "d", "x", 0⟩]⟩ rfl).1
    ⟨"telegram a b", "d", "x", 1⟩ (by simp) rfl

/-- When the post-login marker never appears, every iteration of the
login loop times out and reloads: the loop performs exactly `fuel` wait
attempts and `fuel` reloads and reports failure. -/
theorem loginLoop_never (marker : Nat → Bool) (h : ∀ i, marker i = false) :
    ∀ fuel i, loginLoop marker i fuel = (fuel, fuel, false) := by
  intro fuel
  induction fuel with
  | zero => intro i; rfl
  | succ n ih => intro i; simp [loginLoop, h i, ih (i + 1)]

/-- C4: with the post-login marker never appearing, the handler performs
at most 3 wait attempts in every case, and — whenever it gets past the
token-count check — exactly 3 wait-and-reload cycles, then reports the
login failure and aborts: nothing is searched, composed, or sent, no
session state is written, and the context is closed. -/
theorem auth_retry_capped (sessionFile : Option String) (env : TelegramEnv) (title : String)
    (hnever : ∀ i, env.markerAppears i = false) :
    (TelegramRun sessionFile env title).1.waitAttempts ≤ 3 ∧
    (3 ≤ (pySplit title).length →
       (TelegramRun sessionFile env title).1 =
         { waitAttempts := 3, pageReloads := 3, loginSuccessful := false, sessionSaves := 0,
           searchFilled := none, chatClicked := false, messageFilled := none,
           sendClicked := false, contextClosed := true, malformedCommand := false } ∧
       (TelegramRun sessionFile env title).2 = sessionFile) := by
  have hloop := loginLoop_never env.markerAppears hnever 3 0
  rcases hsp : pySplit title with _ | ⟨w0, _ | ⟨w1, _ | ⟨w2, rest⟩⟩⟩
  · constructor
    · simp [TelegramRun, hsp]
    · intro hlen; simp at hlen
  · constructor
    · simp [TelegramRun, hsp]
    · intro hlen; simp at hlen
  · constructor
    · simp [TelegramRun, hsp]
    · intro hlen; simp at hlen
  · constructor
    · simp [TelegramRun, hsp, hloop]
    · intro _
      constructor
      · simp [TelegramRun, hsp, hloop]
      · simp [TelegramRun, hsp, hloop]

/-- Witness for C4: marker never appears on a well-formed command. -/
theorem auth_retry_capped_w :
    (TelegramRun none ⟨fun _ => false, true⟩ "telegram bob hi").1.waitAttempts ≤ 3 ∧
    (TelegramRun none ⟨fun _ => false, true⟩ "telegram bob hi").1 =
      { waitAttempts := 3, pageReloads := 3, loginSuccessful := false, sessionSaves := 0,
        searchFilled := none, chatClicked := false, messageFilled := none,
        sendClicked := false, contextClosed := true, malformedCommand := false } ∧
    (TelegramRun none ⟨fun _ => false, true⟩ "telegram bob hi").2 = none := by
  have h := auth_retry_capped none ⟨fun _ => false, true⟩ "telegram bob hi" (fun _ => rfl)
  exact ⟨h.1, (h.2 (by decide)).1, (h.2 (by decide)).2⟩

/-- C5: login succeeded but no conversation is visible under the search
results group: the handler aborts after its single search fill — the
chat is never opened, no message is composed, send is never clicked —
yet the session state was already written once (right after login), and
the context is closed. -/
theorem target_not_found_aborts (sessionFile : Option String) (env : TelegramEnv)
    (title w0 w1 w2 : String) (rest : List String)
    (hsplit : pySplit title = w0 :: w1 :: w2 :: rest)
    (hlogin : (loginLoop env.markerAppears 0 3).2.2 = true)
    (hnochat : env.chatResultVisible = false) :
    (TelegramRun sessionFile env title).1 =
      { waitAttempts := (loginLoop env.markerAppears 0 3).1,
        pageReloads := (loginLoop env.markerAppears 0 3).2.1,
        loginSuccessful := true, sessionSaves := 1, searchFilled := some w1,
        chatClicked := false, messageFilled := none, sendClicked := false,
        contextClosed := true, malformedCommand := false } ∧
    (TelegramRun sessionFile env title).2 = some sessionPayload := by
  constructor
  · simp [TelegramRun, hsplit, hlogin, hnochat]
  · simp [TelegramRun, hsplit, hlogin, hnochat]

/-- Witness for C5: first wait succeeds, no chat result visible. -/
theorem target_not_found_aborts_w :
    (TelegramRun none ⟨fun _ => true, false⟩ "telegram bob hi").1 =
      { waitAttempts := 1, pageReloads := 0, loginSuccessful := true, sessionSaves := 1,
        searchFilled := some "bob", chatClicked := false, messageFilled := none,
        sendClicked := false, contextClosed := true, malformedCommand := false } ∧
    (TelegramRun none ⟨fun _ => true, false⟩ "telegram bob hi").2 = some sessionPayload :=
  target_not_found_aborts none ⟨fun _ => true, false⟩ "telegram bob hi"
    "telegram" "bob" "hi" [] (by decide) rfl rfl

/-- C6 counterexample: on the malformed-command early return (line 31 —
title `"hi"` has fewer than 3 tokens) the handler returns without
closing the browsing context it created at line 18. -/
theorem malformed_leaves_context_open :
    (TelegramRun none ⟨fun _ => false, false⟩ "hi").1.contextClosed = false := rfl

/-- C6 amended: the handler closes its context on every exit path that
passes the token-count check — success, no-visible-result, and
login-failure — but the malformed-command early return performs no
action beyond logging and leaves the context open. -/
theorem context_release_paths (sessionFile : Option String) (env : TelegramEnv)
    (title : String) :
    (3 ≤ (pySplit title).length →
       (TelegramRun sessionFile env title).1.contextClosed = true) ∧
    ((pySplit title).length < 3 →
       (TelegramRun sessionFile env title).1 =
         { waitAttempts := 0, pageReloads := 0, loginSuccessful := false, sessionSaves := 0,
           searchFilled := none, chatClicked := false, messageFilled := none,
           sendClicked := false, contextClosed := false, malformedCommand := true } ∧
       (TelegramRun sessionFile env title).2 = sessionFile) := by
  rcases hsp : pySplit title with _ | ⟨w0, _ | ⟨w1, _ | ⟨w2, rest⟩⟩⟩
  · refine ⟨fun hlen => ?_, fun _ => ?_⟩
    · simp at hlen
    · constructor <;> simp [TelegramRun, hsp]
  · refine ⟨fun hlen => ?_, fun _ => ?_⟩
    · simp at hlen
    · constructor <;> simp [TelegramRun, hsp]
  · refine ⟨fun hlen => ?_, fun _ => ?_⟩
    · simp at hlen
    · constructor <;> simp [TelegramRun, hsp]
  · refine ⟨fun _ => ?_, fun hlen => ?_⟩
    · rcases hsucc : (loginLoop env.markerAppears 0 3).2.2 with _ | _
      · simp [TelegramRun, hsp, hsucc]
      · rcases hvis : env.chatResultVisible with _ | _ <;>
          simp [TelegramRun, hsp, hsucc, hvis]
    · simp at hlen
      omega

/-- Witness for C6: a well-formed title closes the context; the
malformed title `"hi"` takes the no-action early return. -/
theorem context_release_paths_w :
    (TelegramRun none ⟨fun _ => true, true⟩ "telegram bob hi").1.contextClosed = true ∧
    (TelegramRun none ⟨fun _ => false, false⟩ "hi").1 =
      { waitAttempts := 0, pageReloads := 0, loginSuccessful := false, sessionSaves := 0,
        searchFilled := none, chatClicked := false, messageFilled := none,
        sendClicked := false, contextClosed := false, malformedCommand := true } ∧
    (TelegramRun none ⟨fun _ => false, false⟩ "hi").2 = none := by
  have h1 := (context_release_paths none ⟨fun _ => true, true⟩ "telegram bob hi").1 (by decide)
  have h2 := (context_release_paths none ⟨fun _ => false, false⟩ "hi").2 (by decide)
  exact ⟨h1, h2.1, h2.2⟩

/-- C7 counterexample: the messaging-site session load (line 18) creates
no placeholder when the file is missing, and passes an existing
zero-length file straight to the restore step instead of an
empty-object state. -/
theorem telegram_session_no_placeholder :
    (telegramLoad none).2 = none ∧ (telegramLoad (some "")).1 = some "" := ⟨rfl, rfl⟩

/-- C7 amended: only the journal-site session load (lines 136-138)
returns the empty-object state and writes the `\x7b\x7d` placeholder on a
missing or zero-length file; the messaging-site load never writes its
file, passes no state when the file is missing, and passes the file
content through as-is otherwise. -/
theorem session_bootstrap_per_site (file : Option String) :
    ((file = none ∨ file = some "") → rabbitholeLoad file = (emptyJson, some emptyJson)) ∧
    (∀ c, file = some c → c ≠ "" → rabbitholeLoad file = (c, some c)) ∧
    (telegramLoad file).2 = file ∧
    (telegramLoad file).1 = file := by
  rcases file with _ | c
  · refine ⟨fun _ => rfl, ?_, rfl, rfl⟩
    intro c hc
    cases hc
  · refine ⟨?_, ?_, rfl, rfl⟩
    · rintro (h | h)
      · cases h
      · cases h
        rfl
    · intro c2 hc2 hne
      injection hc2 with hc2
      subst hc2
      have hlen : c.length ≠ 0 := by
        intro h0
        apply hne
        cases c with
        | mk data =>
          cases data with
          | nil => rfl
          | cons a as => simp [String.length] at h0
      simp [rabbitholeLoad, hlen]

/-- Witness for C7: a fresh environment with no session files. -/
theorem session_bootstrap_per_site_w :
    rabbitholeLoad none = (emptyJson, some emptyJson) ∧
    (telegramLoad none).2 = none :=
  ⟨(session_bootstrap_per_site none).1 (Or.inl rfl),
   (session_bootstrap_per_site none).2.2.1⟩

/-- A row of the ledger survives one poll cycle: `pollCycle` only ever
appends. -/
theorem pollCycle_records_mono (db : Ledger) (inp : CycleInput) (r : LedgerRecord)
    (h : r ∈ db.records) : r ∈ (pollCycle db inp).1.records := by
  rcases hto : inp.listTimeout with _ | _
  · rcases hsel : selectEntry inp.entries with _ | e
    · simpa [pollCycle, hto, hsel] using h
    · by_cases hex : entry_exists db e.title e.date e.time = true
      · simpa [pollCycle, hto, hsel, hex] using h
      · rcases hd : dispatchE e.title with _ | o
        · simp [pollCycle, hto, hsel, hex, hd, save_entry]
          exact Or.inl h
        · rcases o with _ | t
          · simp [pollCycle, hto, hsel, hex, hd, save_entry]
            exact Or.inl h
          · simp [pollCycle, hto, hsel, hex, hd, save_entry]
            exact Or.inl h
  · simpa [pollCycle, hto] using h

/-- Rows survive any number of poll cycles. -/
theorem runCycles_records_mono (inps : List CycleInput) :
    ∀ (db : Ledger) (r : LedgerRecord), r ∈ db.records → r ∈ (runCycles db inps).records := by
  induction inps with
  | nil => intro db r h; exact h
  | cons i is ih =>
    intro db r h
    exact ih (pollCycle db i).1 r (pollCycle_records_mono db i r h)

/-- C8: inserting a key makes `exists` true, and it stays true across
any further poll cycles — every ledger row is preserved by every
operation the system performs, and no operation removes or rewrites a
row. -/
theorem ledger_write_once (db : Ledger) (t d tm : String) (inps : List CycleInput) :
    entry_exists (save_entry db t d tm) t d tm = true ∧
    (∀ r, r ∈ db.records → r ∈ (runCycles db inps).records) ∧
    (entry_exists db t d tm = true → entry_exists (runCycles db inps) t d tm = true) ∧
    entry_exists (runCycles (save_entry db t d tm) inps) t d tm = true := by
  have hins : entry_exists (save_entry db t d tm) t d tm = true := by
    simp [entry_exists, save_entry]
    exact Or.inr (by simp [keyMatches])
  have hmono : ∀ db2 : Ledger, entry_exists db2 t d tm = true →
      entry_exists (runCycles db2 inps) t d tm = true := by
    intro db2 h
    rw [entry_exists, List.any_eq_true] at h ⊢
    obtain ⟨r, hr, hk⟩ := h
    exact ⟨r, runCycles_records_mono inps db2 r hr, hk⟩
  exact ⟨hins, fun r hr => runCycles_records_mono inps db r hr, hmono db,
    hmono (save_entry db t d tm) hins⟩

/-- Witness for C8: insert a key, run a cycle, the key is still there. -/
theorem ledger_write_once_w :
    entry_exists (save_entry ⟨2, [⟨1, "t", "d", "x"⟩]⟩ "t" "d" "x") "t" "d" "x" = true ∧
    entry_exists (runCycles ⟨2, [⟨1, "t", "d", "x"⟩]⟩ [⟨false, []⟩]) "t" "d" "x" = true := by
  have h := ledger_write_once ⟨2, [⟨1, "t", "d", "x"⟩]⟩ "t" "d" "x" [⟨false, []⟩]
  exact ⟨h.1, h.2.2.1 (by decide)⟩

/-- A negative `entry_exists` answer means no row matches the key. -/
theorem entry_exists_false_all (db : Ledger) (t d tm : String)
    (h : entry_exists db t d tm = false) :
    ∀ r ∈ db.records, keyMatches r t d tm = false := by
  rw [entry_exists, List.any_eq_false] at h
  intro r hr
  simpa using h r hr

/-- An insert guarded by a negative `entry_exists` check preserves the
at-most-one-record-per-key invariant. -/
theorem atMostOne_insert (db : Ledger) (t d tm : String)
    (hnot : entry_exists db t d tm = false) (h : atMostOnePerKey db) :
    atMostOnePerKey (save_entry db t d tm) := by
  intro t2 d2 tm2
  simp only [save_entry, List.filter_append, List.length_append]
  by_cases hk : keyMatches ⟨db.nextId, t, d, tm⟩ t2 d2 tm2 = true
  · have hkey : (t = t2 ∧ d = d2) ∧ tm = tm2 := by
      simp [keyMatches] at hk
      exact hk
    obtain ⟨⟨rfl, rfl⟩, rfl⟩ := hkey
    have hnil : db.records.filter (fun r => keyMatches r t d tm) = [] := by
      rw [List.filter_eq_nil_iff]
      intro r hr
      simp [entry_exists_false_all db t d tm hnot r hr]
    simp [hnil, hk]
  · have hone : List.filter (fun r => keyMatches r t2 d2 tm2)
        [(⟨db.nextId, t, d, tm⟩ : LedgerRecord)] = [] := by
      rw [List.filter_eq_nil_iff]
      intro r hr
      simp only [List.mem_singleton] at hr
      subst hr
      simpa using hk
    rw [hone]
    simpa using h t2 d2 tm2

/-- C9: `save_entry` enforces no key uniqueness — inserting the same
key twice yields two rows with distinct autoincrement ids — while a
guarded poll cycle (which consults `entry_exists` before inserting)
preserves the at-most-one-record-per-key invariant. -/
theorem ledger_key_not_unique (db : Ledger) (t d tm : String) (inp : CycleInput) :
    (⟨db.nextId, t, d, tm⟩ : LedgerRecord) ∈
      (save_entry (save_entry db t d tm) t d tm).records ∧
    (⟨db.nextId + 1, t, d, tm⟩ : LedgerRecord) ∈
      (save_entry (save_entry db t d tm) t d tm).records ∧
    db.nextId ≠ db.nextId + 1 ∧
    (atMostOnePerKey db → atMostOnePerKey (pollCycle db inp).1) := by
  refine ⟨by simp [save_entry], by simp [save_entry], by omega, ?_⟩
  intro h
  rcases hto : inp.listTimeout with _ | _
  · rcases hsel : selectEntry inp.entries with _ | e
    · simpa [pollCycle, hto, hsel] using h
    · by_cases hex : entry_exists db e.title e.date e.time = true
      · simpa [pollCycle, hto, hsel, hex] using h
      · have hnot : entry_exists db e.title e.date e.time = false := by
          simpa using hex
        have h2 := atMostOne_insert db e.title e.date e.time hnot h
        rcases hd : dispatchE e.title with _ | o
        · simpa [pollCycle, hto, hsel, hex, hd] using h2
        · rcases o with _ | t2
          · simpa [pollCycle, hto, hsel, hex, hd] using h2
          · simpa [pollCycle, hto, hsel, hex, hd] using h2
  · simpa [pollCycle, hto] using h

/-- Witness for C9: double-inserting one key from an empty ledger. -/
theorem ledger_key_not_unique_w :
    (⟨1, "t", "d", "x"⟩ : LedgerRecord) ∈
      (save_entry (save_entry ⟨1, []⟩ "t" "d" "x") "t" "d" "x").records ∧
    (⟨2, "t", "d", "x"⟩ : LedgerRecord) ∈
      (save_entry (save_entry ⟨1, []⟩ "t" "d" "x") "t" "d" "x").records ∧
    atMostOnePerKey (pollCycle ⟨1, []⟩ ⟨false, []⟩).1 := by
  have h := ledger_key_not_unique ⟨1, []⟩ "t" "d" "x" ⟨false, []⟩
  exact ⟨h.1, h.2.1, h.2.2.2 (fun t d tm => by simp)⟩

/-- Tokenizing a string of whitespace characters yields no tokens. -/
theorem splitWsAux_all_ws : ∀ cs : List Char, (∀ c ∈ cs, c.isWhitespace) →
    splitWsAux cs [] = [] := by
  intro cs
  induction cs with
  | nil => intro _; rfl
  | cons c cs ih =>
    intro h
    have hc : c.isWhitespace = true := h c (by simp)
    simp [splitWsAux, hc]
    exact ih (fun x hx => h x (by simp [hx]))

/-- C10: an empty or whitespace-only title tokenizes to the empty list,
so the first-word extraction of line 197 raises `IndexError`; in the
poll cycle the entry was already saved, and the cycle ends in the
uncaught-crash outcome instead of a logged skip. -/
theorem empty_title_crashes (title : String)
    (hws : ∀ c ∈ title.data, c.isWhitespace) :
    dispatchE title = .error .indexError ∧
    (∀ (db : Ledger) (inp : CycleInput) (e : Entry),
       inp.listTimeout = false → selectEntry inp.entries = some e →
       e.title = title → entry_exists db e.title e.date e.time = false →
       pollCycle db inp = (save_entry db e.title e.date e.time, .crashed e)) := by
  have hsp : pySplit title = [] := splitWsAux_all_ws title.data hws
  have hd0 : dispatchE title = .error .indexError := by
    simp [dispatchE, hsp]
  refine ⟨hd0, ?_⟩
  intro db inp e hto hsel het hex
  have hd : dispatchE e.title = .error .indexError := by rw [het]; exact hd0
  simp [pollCycle, hto, hsel, hex, hd]

/-- Witness for C10: a whitespace-only title crashes the cycle after
its row was saved. -/
theorem empty_title_crashes_w :
    dispatchE " " = .error .indexError ∧
    pollCycle ⟨1, []⟩ ⟨false, [⟨" ", "d", "x", 0⟩]⟩ =
      (save_entry ⟨1, []⟩ " " "d" "x", .crashed ⟨" ", "d", "x", 0⟩) := by
  have h := empty_title_crashes " " (by decide)
  exact ⟨h.1, h.2 ⟨1, []⟩ ⟨false, [⟨" ", "d", "x", 0⟩]⟩ ⟨" ", "d", "x", 0⟩ rfl rfl rfl rfl⟩
